import Mathlib

/-!
Verification of the core risk-analysis engine of RedSPN's `generate_report.py`
(class `ADAuditReportGenerator`): the risk-scoring formulas
(`calculate_risk_scores`, lines 1033-1081; `get_overall_risk_score`, lines
1083-1094), and the relationship-graph construction plus attack-path detection
(`generate_graph_visualization`, lines 1946-2201), as a shallow embedding.

Modelling conventions:
* A JSON record field is embedded at the type the code reads it at.  A field
  read only through `x.get(k, default)` is embedded with the default already
  applied (e.g. `EncryptionTypes : List String`, absent means `[]`); a field
  whose absence is observable through a Python truthiness test (`if v:`) or an
  f-string is embedded as an `Option`.
* Python truthiness of a tested value is embedded as the corresponding Bool
  (list non-emptiness, string non-emptiness, `Option.isSome`, the Bool itself,
  non-zero for integers).
* Python numbers are exact here: `int` is `Int`.  The single float computation,
  `normalized_score = min(total_score / 10, 100)` in `get_overall_risk_score`,
  always has a value that is a multiple of 1/10; it is represented exactly by
  ten times its value (an `Int`), see `get_overall_risk_score` below.
* Strings are Lean `String`s.  f-string interpolation of a `None` account name
  (`f"user_{user.get('SamAccountName')}"`) prints `"None"`, see `pyFStr`.
-/

/-- Python `str.lower()` restricted to ASCII, which is all the code compares. -/
def pyLower (s : String) : String := String.mk (s.data.map Char.toLower)

/-- Python `s.startswith(p)`. -/
def pyStartsWith (s p : String) : Bool := p.data.isPrefixOf s.data

def hasSubstrAux : List Char → List Char → Bool
  | [], pat => pat.isEmpty
  | c :: rest, pat => pat.isPrefixOf (c :: rest) || hasSubstrAux rest pat

/-- Python `p in s` on strings, and `s.find(p) >= 0` (which holds exactly when
`p` occurs in `s`): substring occurrence. -/
def pyContains (s pat : String) : Bool := hasSubstrAux s.data pat.data

/-- f-string interpolation of an optional string: Python prints `None` for an
absent value (`f"user_{user.get('SamAccountName')}"`). -/
def pyFStr : Option String → String
  | none => "None"
  | some s => s

/-- Python `s.replace('$', '')`. -/
def stripDollar (s : String) : String := String.mk (s.data.filter (fun c => c ≠ '$'))

/-- Python `min` on two ints (used with explicit `if` so that concrete values
kernel-evaluate; equal to `min`, see `pyMin_eq_min`). -/
def pyMin (a b : Int) : Int := if a ≤ b then a else b

theorem pyMin_eq_min (a b : Int) : pyMin a b = min a b := by
  unfold pyMin; split <;> omega

/-- A user record, with the fields the analysis engine reads.
`memberOf = none` models an absent, `None`-valued, or non-list `MemberOf`
(all are normalized to `[]` by `_get_member_of`). -/
structure PyUser where
  samAccountName : Option String := none
  spns : Option (List String) := none
  trustedForDelegation : Bool := false
  trustedToAuthForDelegation : Bool := false
  encryptionTypes : List String := []
  useDESKeyOnly : Bool := false
  memberOf : Option (List String) := none
  daysSinceLastLogon : Option Int := none
  daysSincePasswordChange : Option Int := none
  doesNotRequirePreAuth : Bool := false
  description : String := ""
deriving DecidableEq

/-- A computer record, with the fields the analysis engine reads. -/
structure PyComputer where
  samAccountName : Option String := none
  trustedForDelegation : Bool := false
  trustedToAuthForDelegation : Bool := false
  constrainedDelegation : List String := []
  isDomainController : Bool := false
deriving DecidableEq

/-- A member entry of a `SecurityGroups` record. -/
structure PyMember where
  samAccountName : Option String := none
deriving DecidableEq

/-- A `SecurityGroups` record. -/
structure PyGroup where
  name : Option String := none
  members : List PyMember := []
deriving DecidableEq

/-- The directory snapshot (`self.data`): the top-level sections the core
reads.  Absent list sections are `[]` (the code reads them with
`self.data.get(k, [])`); `ntlmEventCount` is
`self.data.get('Statistics', {}).get('NTLMEventCount', 0)` with the absent
cases already defaulted to 0. -/
structure Snapshot where
  domain : Option String := none
  users : List PyUser := []
  computers : List PyComputer := []
  securityGroups : List PyGroup := []
  ntlmEventCount : Int := 0
deriving DecidableEq

/-- `_get_member_of` (lines 1024-1031): the `MemberOf` value when it is a
list, else `[]`. -/
def getMemberOf (u : PyUser) : List String := u.memberOf.getD []

/-- `u.get('SPNs') and len(u.get('SPNs', [])) > 0` (line 1045): the SPN list
is present (truthy) and non-empty. -/
def hasSPNs (u : PyUser) : Bool :=
  match u.spns with
  | none => false
  | some l => !l.isEmpty

/-- `u.get('TrustedForDelegation') or u.get('TrustedToAuthForDelegation')`
(lines 1049-1050). -/
def userDelegated (u : PyUser) : Bool :=
  u.trustedForDelegation || u.trustedToAuthForDelegation

/-- Lines 1051-1054: computer has a delegation flag or a non-empty
`ConstrainedDelegation` list, and is not a domain controller. -/
def computerDelegated (c : PyComputer) : Bool :=
  (c.trustedForDelegation || c.trustedToAuthForDelegation
    || !c.constrainedDelegation.isEmpty)
  && !c.isDomainController

/-- `any(enc in ['DES', 'RC4'] for enc in u.get('EncryptionTypes', []))`
(line 1059, also line 1977 and 1107). -/
def weakEncryption (u : PyUser) : Bool :=
  u.encryptionTypes.any (fun enc => enc == "DES" || enc == "RC4")

/-- Line 1059-1060: weak encryption types or `UseDESKeyOnly`. -/
def weakEncryptionOrDES (u : PyUser) : Bool :=
  weakEncryption u || u.useDESKeyOnly

/-- `u.get('DaysSinceLastLogon') and u.get('DaysSinceLastLogon') > 90`
(line 1075): present, truthy (non-zero) and above 90. -/
def inactiveLogon (u : PyUser) : Bool :=
  match u.daysSinceLastLogon with
  | none => false
  | some d => d != 0 && d > 90

/-- `u.get('DaysSincePasswordChange') and ... > 365` (line 1077). -/
def oldPassword (u : PyUser) : Bool :=
  match u.daysSincePasswordChange with
  | none => false
  | some d => d != 0 && d > 365

/-- `'Domain Admins' in self._get_member_of(u)` (line 1068). -/
def isDomainAdmin (u : PyUser) : Bool :=
  (getMemberOf u).contains "Domain Admins"

/-- `'Protected Users' not in self._get_member_of(u)` negated (line 1070). -/
def isProtectedUser (u : PyUser) : Bool :=
  (getMemberOf u).contains "Protected Users"

/-- The six category sub-scores (`scores` dict of `calculate_risk_scores`). -/
structure RiskScores where
  kerberoasting : Int
  delegation : Int
  encryption : Int
  ntlm : Int
  privileged : Int
  inactive : Int
deriving DecidableEq

/-- `calculate_risk_scores` (lines 1033-1081). -/
def calculate_risk_scores (snap : Snapshot) : RiskScores where
  kerberoasting := ((snap.users.filter hasSPNs).length : Int) * 10
  delegation :=
    ((snap.users.filter userDelegated).length : Int) * 15
      + ((snap.computers.filter computerDelegated).length : Int) * 20
  encryption := ((snap.users.filter weakEncryptionOrDES).length : Int) * 5
  ntlm := pyMin (snap.ntlmEventCount * 2) 100
  privileged :=
    (((snap.users.filter isDomainAdmin).filter
        (fun u => !isProtectedUser u)).length : Int) * 25
  inactive :=
    ((snap.users.filter inactiveLogon).length : Int) * 2
      + ((snap.users.filter oldPassword).length : Int) * 3

/-- `total_score = sum(self.risk_scores.values())` (line 1085). -/
def totalScore (rs : RiskScores) : Int :=
  rs.kerberoasting + rs.delegation + rs.encryption + rs.ntlm
    + rs.privileged + rs.inactive

/-- `get_overall_risk_score` (lines 1083-1094), returning
`(int(normalized_score), css_class, label)`.

The code computes `normalized_score = min(total_score / 10, 100)` with float
division; the exact value is the rational `min(total/10, 100)`, a multiple of
1/10 represented exactly here by ten times its value,
`tenths = min(total, 1000) : Int`.  `int(normalized_score)` truncates toward
zero, which on tenths is `Int.tdiv tenths 10`, and the comparisons
`normalized_score < 30` / `< 70` are exactly `tenths < 300` / `tenths < 700`.
(The correspondence with the claim's rational-valued formula is proved in the
theorem for C1 below.) -/
def get_overall_risk_score (rs : RiskScores) : Int × String × String :=
  let tenths : Int := pyMin (totalScore rs) 1000
  if tenths < 300 then (Int.tdiv tenths 10, "risk-low", "Low Risk")
  else if tenths < 700 then (Int.tdiv tenths 10, "risk-medium", "Medium Risk")
  else (Int.tdiv tenths 10, "risk-high", "High Risk")

/-- Graph node identifiers.  The code builds string ids `f"domain_{name}"`,
`f"user_{name}"`, `f"group_{name}"`, `f"comp_{name}"`; the four prefixes start
with distinct characters, so the kind/name pair determines the string and vice
versa.  `NodeId.toStr` below is that (injective) realization; membership tests
on `node_id_map` are therefore faithfully performed on `NodeId`. -/
inductive NodeId where
  | domain (name : String)
  | user (name : String)
  | group (name : String)
  | comp (name : String)
deriving DecidableEq

/-- The literal id string of a node (`'id'` field of the node dict). -/
def NodeId.toStr : NodeId → String
  | .domain name => "domain_" ++ name
  | .user name => "user_" ++ name
  | .group name => "group_" ++ name
  | .comp name => "comp_" ++ name

/-- A graph node: id, display label and kind (`'type'`).  The remaining node
attributes produced by the code (color, shape, size, group affiliation, SPN
count, risk tier) are display-only data for the renderer and are omitted. -/
structure GraphNode where
  id : NodeId
  label : String
  ntype : String
deriving DecidableEq

/-- A graph edge: `'from'` (`src`), `'to'` (`dst`), relation label, and the
`'attackPath'` flag (absent means false).  Color/width/dashes/arrows are
display-only and omitted. -/
structure GraphEdge where
  src : NodeId
  dst : NodeId
  label : String
  attackPath : Bool := false
deriving DecidableEq

/-- An attack-path finding (the `path` dict of lines 2104-2110 etc.). -/
structure AttackPath where
  ptype : String
  severity : String
  description : String
  path : List NodeId
  steps : List String
deriving DecidableEq

/-- `self.data.get('Domain', 'DOMAIN')` (line 1954). -/
def domainName (snap : Snapshot) : String := snap.domain.getD "DOMAIN"

/-- `domain_id = f"domain_{domain}"` (line 1955). -/
def domainIdOf (snap : Snapshot) : NodeId := .domain (domainName snap)

/-- The user risk tier (lines 1970-1978): first matching rule wins. -/
def userRisk (u : PyUser) : String :=
  if hasSPNs u then "high"
  else if userDelegated u then "high"
  else if (getMemberOf u).contains "Domain Admins"
      || (getMemberOf u).contains "Enterprise Admins" then "high"
  else if weakEncryption u then "medium"
  else "low"

/-- Line 1980: `risk in ['high', 'medium'] or 'Domain Admins' in member_of`. -/
def userIncluded (u : PyUser) : Bool :=
  (userRisk u == "high" || userRisk u == "medium") || isDomainAdmin u

/-- `user_id = f"user_{user.get('SamAccountName')}"` (lines 1981, 2066, 2142):
an absent name prints as `None`. -/
def userIdOf (u : PyUser) : NodeId := .user (pyFStr u.samAccountName)

/-- The `high_risk_users` list (lines 1968, 2001): users added as graph
nodes. -/
def highRiskUsers (snap : Snapshot) : List PyUser :=
  snap.users.filter userIncluded

/-- The user node appended at lines 1984-1993 (label default `'N/A'`). -/
def mkUserNode (u : PyUser) : GraphNode where
  id := userIdOf u
  label := u.samAccountName.getD "N/A"
  ntype := "user"

/-- The fixed privileged-group allow-list (line 2006). -/
def privilegedGroupNames : List String :=
  ["Domain Admins", "Enterprise Admins", "Schema Admins", "Account Operators"]

/-- `group_name = group.get('Name', '')` (line 2005). -/
def groupNameOf (g : PyGroup) : String := g.name.getD ""

/-- Groups passing the allow-list test of line 2006, in iteration order. -/
def privGroups (snap : Snapshot) : List PyGroup :=
  snap.securityGroups.filter (fun g => privilegedGroupNames.contains (groupNameOf g))

/-- `group_id = f"group_{group_name}"` (line 2007). -/
def groupIdOf (g : PyGroup) : NodeId := .group (groupNameOf g)

/-- The group node appended at lines 2009-2017. -/
def mkGroupNode (g : PyGroup) : GraphNode where
  id := groupIdOf g
  label := groupNameOf g
  ntype := "group"

/-- Line 2042: computers added as nodes (delegation flag or domain
controller). -/
def computerIncluded (c : PyComputer) : Bool :=
  c.trustedForDelegation || c.trustedToAuthForDelegation || c.isDomainController

/-- `comp_id = f"comp_{computer.get('SamAccountName')}"` (lines 2043, 2070,
2176). -/
def compIdOf (c : PyComputer) : NodeId := .comp (pyFStr c.samAccountName)

/-- Computers added as nodes, in iteration order (lines 2041-2061). -/
def riskComputers (snap : Snapshot) : List PyComputer :=
  snap.computers.filter computerIncluded

/-- The computer node appended at lines 2046-2054 (label strips `$`). -/
def mkComputerNode (c : PyComputer) : GraphNode where
  id := compIdOf c
  label := stripDollar (c.samAccountName.getD "N/A")
  ntype := "computer"

/-- All keys of `node_id_map` after the build (insertions at lines 1956, 1982,
2008, 2044), in insertion order.  Every insertion is paired with a
`nodes.append` of a node with that id and vice versa; see
`nodes_ids_eq_nodeIdMap`. -/
def nodeIdMapAll (snap : Snapshot) : List NodeId :=
  domainIdOf snap ::
    ((highRiskUsers snap).map userIdOf
      ++ (privGroups snap).map groupIdOf
      ++ (riskComputers snap).map compIdOf)

/-- The node list (appends at lines 1957, 1984, 2009, 2046). -/
def graphNodes (snap : Snapshot) : List GraphNode :=
  { id := domainIdOf snap, label := domainName snap, ntype := "domain" } ::
    ((highRiskUsers snap).map mkUserNode
      ++ (privGroups snap).map mkGroupNode
      ++ (riskComputers snap).map mkComputerNode)

/-- Member edges of one privileged group (lines 2027-2038): for each member
with a truthy (present, non-empty) `SamAccountName` whose `user_id` is in
`node_id_map`, a group→user `MemberOf` edge.

The code tests membership in the `node_id_map` built so far (domain + user
ids + ids of the groups handled up to this one); the tested ids are all
`.user` ids while the entries added after the user phase are `.group` /
`.comp` ids, so testing against the complete map is equivalent — proved in
`user_mem_nodeIdMap_iff`. -/
def memberEdges (mp : List NodeId) (g : PyGroup) : List GraphEdge :=
  g.members.filterMap fun m =>
    match m.samAccountName with
    | none => none
    | some user_sam =>
      if user_sam = "" then none
      else if NodeId.user user_sam ∈ mp then
        some { src := groupIdOf g, dst := .user user_sam, label := "MemberOf" }
      else none

/-- The delegation edges (lines 2063-2080): for each `high_risk_users` entry
with a delegation flag whose id is in the (by then complete) `node_id_map`,
one pre-flagged `DelegatesTo` edge to every computer record whose id is in
`node_id_map`. -/
def delegationEdges (snap : Snapshot) (mp : List NodeId) : List GraphEdge :=
  (highRiskUsers snap).flatMap fun u =>
    if userDelegated u then
      if userIdOf u ∈ mp then
        snap.computers.filterMap fun c =>
          if compIdOf c ∈ mp then
            some { src := userIdOf u, dst := compIdOf c,
                   label := "DelegatesTo", attackPath := true }
          else none
      else []
    else []

/-- The edge list before attack-path marking, in append order: user `Member`
edges (line 1995), per-group `Contains` + `MemberOf` edges (lines 2019, 2032),
computer `Contains` edges (line 2056), delegation edges (line 2072). -/
def rawEdges (snap : Snapshot) : List GraphEdge :=
  (highRiskUsers snap).map
      (fun u => { src := domainIdOf snap, dst := userIdOf u, label := "Member" })
    ++ (privGroups snap).flatMap
      (fun g =>
        { src := domainIdOf snap, dst := groupIdOf g, label := "Contains" } ::
          memberEdges (nodeIdMapAll snap) g)
    ++ (riskComputers snap).map
      (fun c => { src := domainIdOf snap, dst := compIdOf c, label := "Contains" })
    ++ delegationEdges snap (nodeIdMapAll snap)

/-- The Group-Membership finding for user account name `user_sam` with
membership list `member_of` (lines 2102-2110). -/
def mkGroupMembershipFinding (user_sam : String) (member_of : List String) :
    AttackPath :=
  let is_protected := member_of.contains "Protected Users"
  { ptype := "Group Membership"
    severity := if is_protected then "high" else "critical"
    description := "User " ++ user_sam ++ " is a member of Domain Admins"
      ++ (if is_protected then " (Protected Users)" else " (NOT in Protected Users)")
    path := [.user user_sam, .group "Domain Admins"]
    steps := ["User " ++ user_sam ++ " ‚Üí Domain Admins (Direct Membership)"] }

/-- Rule 1, paths to Domain Admins via group membership (lines 2088-2111):
gated on `"group_Domain Admins" in node_id_map`; skips account name
`administrator` (case-insensitive); requires the user's id in `node_id_map`;
then requires `'Domain Admins' in member_of`. -/
def rule1GroupMembership (snap : Snapshot) (mp : List NodeId) : List AttackPath :=
  if NodeId.group "Domain Admins" ∈ mp then
    snap.users.filterMap fun u =>
      if pyLower (u.samAccountName.getD "") = "administrator" then none
      else if NodeId.user (u.samAccountName.getD "") ∈ mp then
        if (getMemberOf u).contains "Domain Admins" then
          some (mkGroupMembershipFinding (u.samAccountName.getD "") (getMemberOf u))
        else none
      else none
  else []

/-- The service-account heuristic of lines 2124-2128. -/
def isLikelyService (user_sam desc : String) : Bool :=
  pyStartsWith (pyLower user_sam) "svc_"
    || pyContains (pyLower user_sam) "service"
    || pyContains (pyLower desc) "service"

/-- The Kerberoasting finding for a user (lines 2129-2136). -/
def mkKerberoastingFinding (user_sam : String) (desc : String)
    (spns : List String) : AttackPath :=
  let is_likely_service := isLikelyService user_sam desc
  { ptype := "Kerberoasting"
    severity := if is_likely_service then "medium" else "high"
    description := "User " ++ user_sam ++ " has SPNs and is vulnerable to Kerberoasting"
      ++ (if is_likely_service then " (likely service account)" else "")
    path := [.user user_sam]
    steps := ["User " ++ user_sam ++ " has SPNs: "
      ++ String.intercalate ", " (spns.take 3)] }

/-- Rule 2, Kerberoasting (lines 2113-2137): skips account name `krbtgt`
(case-insensitive); requires a truthy non-empty SPN list and the user's id in
`node_id_map`. -/
def rule2Kerberoasting (snap : Snapshot) (mp : List NodeId) : List AttackPath :=
  snap.users.filterMap fun u =>
    if pyLower (u.samAccountName.getD "") = "krbtgt" then none
    else if hasSPNs u then
      if NodeId.user (u.samAccountName.getD "") ∈ mp then
        some (mkKerberoastingFinding (u.samAccountName.getD "") u.description
          (u.spns.getD []))
      else none
    else none

/-- Rule 3, delegation attack paths (lines 2139-2152): over `high_risk_users`
with a delegation flag, id in `node_id_map` (note: the id is built with
`f"user_{user.get('SamAccountName')}"`, printing `None` for an absent name). -/
def rule3Delegation (snap : Snapshot) (mp : List NodeId) : List AttackPath :=
  (highRiskUsers snap).filterMap fun u =>
    if userDelegated u then
      if userIdOf u ∈ mp then
        some { ptype := (if u.trustedForDelegation then "Unconstrained" else "Constrained")
                 ++ " Delegation"
               severity := "high"
               description := "User " ++ pyFStr u.samAccountName ++ " has "
                 ++ pyLower (if u.trustedForDelegation then "Unconstrained" else "Constrained")
                 ++ " delegation enabled"
               path := [userIdOf u]
               steps := ["User " ++ pyFStr u.samAccountName
                 ++ " ‚Üí Can delegate to services (Privilege Escalation)"] }
      else none
    else none

/-- The excluded account names of lines 2086/2155. -/
def excludedAccounts : List String := ["Administrator", "krbtgt", "Guest"]

/-- Rule 4, AS-REP roasting (lines 2154-2171): skips the excluded accounts
(case-insensitive); requires the `DoesNotRequirePreAuth` flag and the user's
id in `node_id_map`. -/
def rule4ASREPRoasting (snap : Snapshot) (mp : List NodeId) : List AttackPath :=
  snap.users.filterMap fun u =>
    if (excludedAccounts.map pyLower).contains (pyLower (u.samAccountName.getD "")) then none
    else if u.doesNotRequirePreAuth then
      if NodeId.user (u.samAccountName.getD "") ∈ mp then
        some { ptype := "AS-REP Roasting"
               severity := "high"
               description := "User " ++ u.samAccountName.getD ""
                 ++ " does not require pre-authentication (AS-REP roasting)"
               path := [.user (u.samAccountName.getD "")]
               steps := ["User " ++ u.samAccountName.getD ""
                 ++ " ‚Üí Vulnerable to AS-REP roasting"] }
      else none
    else none

/-- Rule 5, unconstrained delegation on non-DC computers (lines 2173-2185). -/
def rule5UnconstrainedComputers (snap : Snapshot) (mp : List NodeId) :
    List AttackPath :=
  snap.computers.filterMap fun c =>
    if c.trustedForDelegation && !c.isDomainController then
      if compIdOf c ∈ mp then
        some { ptype := "Unconstrained Delegation"
               severity := "critical"
               description := "Computer " ++ stripDollar (c.samAccountName.getD "")
                 ++ " has unconstrained delegation (non-DC)"
               path := [compIdOf c]
               steps := ["Computer " ++ stripDollar (c.samAccountName.getD "")
                 ++ " ‚Üí Unconstrained delegation allows privilege escalation"] }
      else none
    else none

/-- The `attack_paths` list (lines 2082-2185), in rule order.  Rule 6 (nested
groups, line 2187) emits nothing. -/
def attackPathsOf (snap : Snapshot) : List AttackPath :=
  let mp := nodeIdMapAll snap
  rule1GroupMembership snap mp ++ rule2Kerberoasting snap mp
    ++ rule3Delegation snap mp ++ rule4ASREPRoasting snap mp
    ++ rule5UnconstrainedComputers snap mp

/-- `edge_key = f"{path[i]}_{path[i+1]}"`: consecutive pairs of a list. -/
def consecPairs : List NodeId → List (NodeId × NodeId)
  | [] => []
  | [_] => []
  | a :: b :: rest => (a, b) :: consecPairs (b :: rest)

/-- `f"{edge['from']}_{edge['to']}"` (line 2197), on the literal id strings. -/
def edgeKeyOf (e : GraphEdge) : String :=
  e.src.toStr ++ "_" ++ e.dst.toStr

/-- The `attack_path_edge_ids` key set (lines 2189-2193), as a list. -/
def attackPathEdgeKeys (paths : List AttackPath) : List String :=
  paths.flatMap fun p =>
    (consecPairs p.path).map fun pr => pr.1.toStr ++ "_" ++ pr.2.toStr

/-- The edge-marking pass (lines 2195-2201): an edge whose key is in the key
set, or that is already flagged, gets `attackPath = True` (the width/color
updates are display-only and omitted). -/
def markEdges (edges : List GraphEdge) (keys : List String) : List GraphEdge :=
  edges.map fun e =>
    if edgeKeyOf e ∈ keys || e.attackPath then { e with attackPath := true }
    else e

/-- The final graph handed to the renderer: nodes, and edges after the
attack-path marking pass. -/
structure Graph where
  nodes : List GraphNode
  edges : List GraphEdge
deriving DecidableEq

/-- The graph produced by `generate_graph_visualization` (nodes from lines
1948-2061, edges after the marking pass of lines 2195-2201). -/
def buildGraph (snap : Snapshot) : Graph where
  nodes := graphNodes snap
  edges := markEdges (rawEdges snap) (attackPathEdgeKeys (attackPathsOf snap))

/-- A raw optional list-valued field, distinguishing an absent key from a key
present with JSON `null` (Python `None`): `dict.get(k, default)` only applies
the default when the key is absent — a stored `None` is returned as-is, and
iterating over it raises `TypeError`.  Used to settle C5 on
`calculate_risk_scores`' read of `EncryptionTypes` (line 1059), the one read
in the scoring engine that iterates a `.get(k, [])` result unguarded. -/
inductive RawListField where
  | absent
  | null
  | val (l : List String)
deriving DecidableEq

/-- A user record whose `EncryptionTypes` field is kept raw. -/
structure RawUser where
  samAccountName : Option String := none
  spns : Option (List String) := none
  trustedForDelegation : Bool := false
  trustedToAuthForDelegation : Bool := false
  encryptionTypes : RawListField := .absent
  useDESKeyOnly : Bool := false
  memberOf : Option (List String) := none
  daysSinceLastLogon : Option Int := none
  daysSincePasswordChange : Option Int := none
  doesNotRequirePreAuth : Bool := false
  description : String := ""
deriving DecidableEq

/-- A snapshot whose user records keep `EncryptionTypes` raw. -/
structure RawSnapshot where
  domain : Option String := none
  users : List RawUser := []
  computers : List PyComputer := []
  securityGroups : List PyGroup := []
  ntlmEventCount : Int := 0
deriving DecidableEq

/-- The defaulted view of a raw user: an absent `EncryptionTypes` reads as
`[]` through `u.get('EncryptionTypes', [])`; a `null` value is the case the
code cannot reach without raising. -/
def RawUser.toPyUser (u : RawUser) : PyUser where
  samAccountName := u.samAccountName
  spns := u.spns
  trustedForDelegation := u.trustedForDelegation
  trustedToAuthForDelegation := u.trustedToAuthForDelegation
  encryptionTypes := match u.encryptionTypes with
    | .val l => l
    | _ => []
  useDESKeyOnly := u.useDESKeyOnly
  memberOf := u.memberOf
  daysSinceLastLogon := u.daysSinceLastLogon
  daysSincePasswordChange := u.daysSincePasswordChange
  doesNotRequirePreAuth := u.doesNotRequirePreAuth
  description := u.description

def RawSnapshot.toSnapshot (snap : RawSnapshot) : Snapshot where
  domain := snap.domain
  users := snap.users.map RawUser.toPyUser
  computers := snap.computers
  securityGroups := snap.securityGroups
  ntlmEventCount := snap.ntlmEventCount

/-- Line 1059-1060 on a raw record:
`any(enc in ['DES', 'RC4'] for enc in u.get('EncryptionTypes', [])) or
u.get('UseDESKeyOnly', False)`.  When the stored value is `None`, the `for`
raises `TypeError` (modelled as `Except.error ()`); when the key is absent the
default `[]` makes the `any` false. -/
def weakEncryptionOrDESRaw (u : RawUser) : Except Unit Bool :=
  match u.encryptionTypes with
  | .null => .error ()
  | .absent => .ok u.useDESKeyOnly
  | .val l => .ok (l.any (fun enc => enc == "DES" || enc == "RC4") || u.useDESKeyOnly)

/-- The length of the `weak_encryption_users` comprehension (lines 1058-1060),
which evaluates its predicate left to right and propagates the first raise. -/
def countWeakEncryptionRaw : List RawUser → Except Unit Nat
  | [] => .ok 0
  | u :: rest => do
    let b ← weakEncryptionOrDESRaw u
    let n ← countWeakEncryptionRaw rest
    pure (if b then n + 1 else n)

/-- `calculate_risk_scores` (lines 1033-1081) over a snapshot whose
`EncryptionTypes` fields are raw: only the encryption category (line 1061) can
raise, every other read is defaulted or truthiness-guarded. -/
def calculate_risk_scoresRaw (snap : RawSnapshot) : Except Unit RiskScores := do
  let weak ← countWeakEncryptionRaw snap.users
  let users := snap.users.map RawUser.toPyUser
  pure
    { kerberoasting := ((users.filter hasSPNs).length : Int) * 10
      delegation :=
        ((users.filter userDelegated).length : Int) * 15
          + ((snap.computers.filter computerDelegated).length : Int) * 20
      encryption := (weak : Int) * 5
      ntlm := pyMin (snap.ntlmEventCount * 2) 100
      privileged :=
        (((users.filter isDomainAdmin).filter
            (fun u => !isProtectedUser u)).length : Int) * 25
      inactive :=
        ((users.filter inactiveLogon).length : Int) * 2
          + ((users.filter oldPassword).length : Int) * 3 }

/-- No user record stores a JSON `null` under `EncryptionTypes`. -/
def noNullEncryptionTypes (snap : RawSnapshot) : Bool :=
  snap.users.all fun u => u.encryptionTypes != RawListField.null

/-! ## Supporting lemmas -/

theorem string_append_cancel_left {p a b : String} (h : p ++ a = p ++ b) :
    a = b := by
  apply String.ext
  have h2 := congrArg String.data h
  simp only [String.data_append] at h2
  exact List.append_cancel_left h2

/-- Parsing a node-id string back into a `NodeId`: a computable left inverse
of `NodeId.toStr` (the four prefixes are distinguishable). -/
def NodeId.ofData : List Char → NodeId
  | 'd' :: 'o' :: 'm' :: 'a' :: 'i' :: 'n' :: '_' :: rest => .domain (String.mk rest)
  | 'u' :: 's' :: 'e' :: 'r' :: '_' :: rest => .user (String.mk rest)
  | 'g' :: 'r' :: 'o' :: 'u' :: 'p' :: '_' :: rest => .group (String.mk rest)
  | 'c' :: 'o' :: 'm' :: 'p' :: '_' :: rest => .comp (String.mk rest)
  | _ => .domain ""

theorem ofData_toStr (n : NodeId) : NodeId.ofData n.toStr.data = n := by
  cases n <;> rfl

/-- The id strings are injective on `NodeId`: the four prefixes are mutually
non-overlapping and within one kind the name is recovered by dropping the
prefix.  This makes `NodeId` a faithful model of the code's string node
ids. -/
theorem NodeId.toStr_injective : Function.Injective NodeId.toStr := by
  intro a b h
  have ha := ofData_toStr a
  rw [h, ofData_toStr b] at ha
  exact ha.symm

/-- The node ids of the built graph are exactly the keys of `node_id_map`:
in the code every `node_id_map` insertion is paired with a `nodes.append` of a
node carrying that id, and conversely. -/
theorem nodes_ids_eq_nodeIdMap (snap : Snapshot) :
    (graphNodes snap).map GraphNode.id = nodeIdMapAll snap := by
  unfold graphNodes nodeIdMapAll
  simp [List.map_map, Function.comp_def, mkUserNode, mkGroupNode, mkComputerNode]

/-- A `.user` id is in the complete `node_id_map` exactly when some included
user carries that printed account name: the domain, group and computer entries
are of other kinds.  (This is also why testing the group-phase `MemberOf`
guards against the complete map is faithful: the entries inserted after the
user phase can never equal the tested `.user` ids.) -/
theorem user_mem_nodeIdMap_iff (snap : Snapshot) (s : String) :
    NodeId.user s ∈ nodeIdMapAll snap ↔
      ∃ u ∈ highRiskUsers snap, pyFStr u.samAccountName = s := by
  simp [nodeIdMapAll, domainIdOf, userIdOf, groupIdOf, compIdOf, eq_comm]

/-- A `.group` id is in the complete `node_id_map` exactly when some
allow-listed security group carries that name. -/
theorem group_mem_nodeIdMap_iff (snap : Snapshot) (s : String) :
    NodeId.group s ∈ nodeIdMapAll snap ↔
      ∃ g ∈ privGroups snap, groupNameOf g = s := by
  simp [nodeIdMapAll, domainIdOf, userIdOf, groupIdOf, compIdOf, eq_comm]

theorem userIdOf_mem_nodeIdMap {snap : Snapshot} {u : PyUser}
    (hu : u ∈ snap.users) (hinc : userIncluded u = true) :
    userIdOf u ∈ nodeIdMapAll snap := by
  have hmem : u ∈ highRiskUsers snap := List.mem_filter.mpr ⟨hu, hinc⟩
  exact List.mem_cons_of_mem _
    (List.mem_append_left _
      (List.mem_append_left _ (List.mem_map_of_mem _ hmem)))

theorem compIdOf_mem_nodeIdMap {snap : Snapshot} {c : PyComputer}
    (hc : c ∈ snap.computers) (hinc : computerIncluded c = true) :
    compIdOf c ∈ nodeIdMapAll snap := by
  have hmem : c ∈ riskComputers snap := List.mem_filter.mpr ⟨hc, hinc⟩
  exact List.mem_cons_of_mem _
    (List.mem_append_right _ (List.mem_map_of_mem _ hmem))

theorem mkGM_ptype (s : String) (mo : List String) :
    (mkGroupMembershipFinding s mo).ptype = "Group Membership" := rfl

theorem mkGM_path (s : String) (mo : List String) :
    (mkGroupMembershipFinding s mo).path = [.user s, .group "Domain Admins"] := rfl

theorem mkGM_severity (s : String) (mo : List String) :
    (mkGroupMembershipFinding s mo).severity =
      if mo.contains "Protected Users" then "high" else "critical" := rfl

theorem mkKerb_ptype (s d : String) (spns : List String) :
    (mkKerberoastingFinding s d spns).ptype = "Kerberoasting" := rfl

theorem mkKerb_path (s d : String) (spns : List String) :
    (mkKerberoastingFinding s d spns).path = [.user s] := rfl

theorem mkKerb_severity (s d : String) (spns : List String) :
    (mkKerberoastingFinding s d spns).severity =
      if isLikelyService s d then "medium" else "high" := rfl

/-- Dissection of rule 1: every emitted finding comes from a non-Administrator
user record whose id and the Domain Admins group id are both in the map. -/
theorem rule1_shape {snap : Snapshot} {mp : List NodeId} {p : AttackPath}
    (hp : p ∈ rule1GroupMembership snap mp) :
    NodeId.group "Domain Admins" ∈ mp ∧
      ∃ u ∈ snap.users,
        pyLower (u.samAccountName.getD "") ≠ "administrator" ∧
        NodeId.user (u.samAccountName.getD "") ∈ mp ∧
        (getMemberOf u).contains "Domain Admins" = true ∧
        p = mkGroupMembershipFinding (u.samAccountName.getD "") (getMemberOf u) := by
  unfold rule1GroupMembership at hp
  split at hp
  case isFalse => simp at hp
  case isTrue hgate =>
    rw [List.mem_filterMap] at hp
    obtain ⟨u, hu, hfu⟩ := hp
    refine ⟨hgate, u, hu, ?_⟩
    split at hfu
    case isTrue => simp at hfu
    case isFalse hadm =>
      split at hfu
      case isFalse => simp at hfu
      case isTrue hmem =>
        split at hfu
        case isFalse => simp at hfu
        case isTrue hda =>
          rw [Option.some_inj] at hfu
          exact ⟨hadm, hmem, hda, hfu.symm⟩

theorem rule2_shape {snap : Snapshot} {mp : List NodeId} {p : AttackPath}
    (hp : p ∈ rule2Kerberoasting snap mp) :
    ∃ u ∈ snap.users,
      pyLower (u.samAccountName.getD "") ≠ "krbtgt" ∧
      hasSPNs u = true ∧
      NodeId.user (u.samAccountName.getD "") ∈ mp ∧
      p = mkKerberoastingFinding (u.samAccountName.getD "") u.description
        (u.spns.getD []) := by
  unfold rule2Kerberoasting at hp
  rw [List.mem_filterMap] at hp
  obtain ⟨u, hu, hfu⟩ := hp
  refine ⟨u, hu, ?_⟩
  split at hfu
  case isTrue => simp at hfu
  case isFalse hkrb =>
    split at hfu
    case isFalse => simp at hfu
    case isTrue hspn =>
      split at hfu
      case isFalse => simp at hfu
      case isTrue hmem =>
        rw [Option.some_inj] at hfu
        exact ⟨hkrb, hspn, hmem, hfu.symm⟩

theorem rule3_shape {snap : Snapshot} {mp : List NodeId} {p : AttackPath}
    (hp : p ∈ rule3Delegation snap mp) :
    ∃ u ∈ highRiskUsers snap,
      userDelegated u = true ∧
      userIdOf u ∈ mp ∧
      p.ptype = (if u.trustedForDelegation then "Unconstrained" else "Constrained")
        ++ " Delegation" ∧
      p.path = [userIdOf u] := by
  unfold rule3Delegation at hp
  rw [List.mem_filterMap] at hp
  obtain ⟨u, hu, hfu⟩ := hp
  refine ⟨u, hu, ?_⟩
  split at hfu
  case isFalse => simp at hfu
  case isTrue hdel =>
    split at hfu
    case isFalse => simp at hfu
    case isTrue hmem =>
      rw [Option.some_inj] at hfu
      exact ⟨hdel, hmem, by rw [← hfu], by rw [← hfu]⟩

theorem rule4_shape {snap : Snapshot} {mp : List NodeId} {p : AttackPath}
    (hp : p ∈ rule4ASREPRoasting snap mp) :
    ∃ u ∈ snap.users,
      (excludedAccounts.map pyLower).contains
          (pyLower (u.samAccountName.getD "")) = false ∧
      u.doesNotRequirePreAuth = true ∧
      NodeId.user (u.samAccountName.getD "") ∈ mp ∧
      p.ptype = "AS-REP Roasting" ∧
      p.severity = "high" ∧
      p.path = [.user (u.samAccountName.getD "")] := by
  unfold rule4ASREPRoasting at hp
  rw [List.mem_filterMap] at hp
  obtain ⟨u, hu, hfu⟩ := hp
  refine ⟨u, hu, ?_⟩
  split at hfu
  case isTrue => simp at hfu
  case isFalse hexc =>
    split at hfu
    case isFalse => simp at hfu
    case isTrue hpre =>
      split at hfu
      case isFalse => simp at hfu
      case isTrue hmem =>
        rw [Option.some_inj] at hfu
        exact ⟨Bool.of_not_eq_true hexc, hpre, hmem,
          by rw [← hfu], by rw [← hfu], by rw [← hfu]⟩

theorem rule5_shape {snap : Snapshot} {mp : List NodeId} {p : AttackPath}
    (hp : p ∈ rule5UnconstrainedComputers snap mp) :
    ∃ c ∈ snap.computers,
      (c.trustedForDelegation && !c.isDomainController) = true ∧
      compIdOf c ∈ mp ∧
      p.ptype = "Unconstrained Delegation" ∧
      p.severity = "critical" ∧
      p.path = [compIdOf c] := by
  unfold rule5UnconstrainedComputers at hp
  rw [List.mem_filterMap] at hp
  obtain ⟨c, hc, hfc⟩ := hp
  refine ⟨c, hc, ?_⟩
  split at hfc
  case isFalse => simp at hfc
  case isTrue hflag =>
    split at hfc
    case isFalse => simp at hfc
    case isTrue hmem =>
      rw [Option.some_inj] at hfc
      exact ⟨hflag, hmem, by rw [← hfc], by rw [← hfc], by rw [← hfc]⟩

/-! ## C1: overall score formula and classification -/

/-- C1, spec side: the exact value of the code's float
`normalized_score = min(total/10, 100)`, as a rational, following the claim's
formula `min((kerberoasting + ... + inactive) / 10, 100)`. -/
def claimNormalizedScore (t : Int) : ℚ := min ((t : ℚ) / 10) 100

/-- C1, spec side: Python `int()` truncation toward zero of a rational. -/
def claimTrunc (q : ℚ) : Int := if q < 0 then ⌈q⌉ else ⌊q⌋

theorem floor_intCast_div_ten (m : Int) : ⌊((m : ℚ) / 10)⌋ = m / 10 := by
  have h := Rat.floor_intCast_div_natCast m 10
  push_cast at h
  exact h

/-- Truncation toward zero of `n/10` is `Int.tdiv n 10`. -/
theorem claimTrunc_intCast_div_ten (n : Int) :
    claimTrunc ((n : ℚ) / 10) = Int.tdiv n 10 := by
  unfold claimTrunc
  rcases le_or_lt 0 n with hn | hn
  · rw [if_neg (not_lt.mpr (by positivity)), floor_intCast_div_ten,
      Int.tdiv_eq_ediv hn (by norm_num)]
  · have hneg : ((n : ℚ) / 10) < 0 :=
      div_neg_of_neg_of_pos (by exact_mod_cast hn) (by norm_num)
    rw [if_pos hneg,
      show ((n : ℚ) / 10) = -(((-n : Int) : ℚ) / 10) by push_cast; ring,
      Int.ceil_neg, floor_intCast_div_ten,
      show (-n) / 10 = (-n).tdiv 10 from
        (Int.tdiv_eq_ediv (by omega) (by norm_num)).symm,
      Int.neg_tdiv, neg_neg]

/-- The claim's rational `min(total/10, 100)` is the tenths representation
used by the embedded `get_overall_risk_score`, divided by 10. -/
theorem claimNormalized_eq (t : Int) :
    claimNormalizedScore t = ((pyMin t 1000 : Int) : ℚ) / 10 := by
  unfold claimNormalizedScore
  have h := min_div_div_right (show (0:ℚ) ≤ 10 by norm_num) (t : ℚ) 1000
  norm_num at h
  rw [pyMin_eq_min, Int.cast_min]
  push_cast
  rw [← h]

theorem claimNormalized_lt_30 (t : Int) :
    claimNormalizedScore t < 30 ↔ pyMin t 1000 < 300 := by
  rw [claimNormalized_eq, div_lt_iff₀ (by norm_num : (0:ℚ) < 10)]
  constructor <;> intro h <;> exact_mod_cast h

theorem claimNormalized_lt_70 (t : Int) :
    claimNormalizedScore t < 70 ↔ pyMin t 1000 < 700 := by
  rw [claimNormalized_eq, div_lt_iff₀ (by norm_num : (0:ℚ) < 10)]
  constructor <;> intro h <;> exact_mod_cast h

theorem get_overall_fst (rs : RiskScores) :
    (get_overall_risk_score rs).1 = Int.tdiv (pyMin (totalScore rs) 1000) 10 := by
  simp only [get_overall_risk_score]
  split
  · rfl
  · split <;> rfl

theorem get_overall_label (rs : RiskScores) :
    (get_overall_risk_score rs).2.2 =
      if pyMin (totalScore rs) 1000 < 300 then "Low Risk"
      else if pyMin (totalScore rs) 1000 < 700 then "Medium Risk"
      else "High Risk" := by
  by_cases h1 : pyMin (totalScore rs) 1000 < 300
  · simp only [get_overall_risk_score, if_pos h1]
  · by_cases h2 : pyMin (totalScore rs) 1000 < 700
    · simp only [get_overall_risk_score, if_neg h1, if_pos h2]
    · simp only [get_overall_risk_score, if_neg h1, if_neg h2]

/-- C1: for every snapshot, the overall risk score equals
`min((kerberoasting + delegation + encryption + ntlm + privileged + inactive) / 10, 100)`
truncated to an integer (toward zero, as Python `int()` does), and the
classification label is "Low Risk" when the normalized score is below 30,
"Medium Risk" when it is below 70, and "High Risk" otherwise. -/
theorem c1_overall_score_formula (snap : Snapshot) :
    (get_overall_risk_score (calculate_risk_scores snap)).1 =
        claimTrunc (claimNormalizedScore (totalScore (calculate_risk_scores snap)))
      ∧ ((get_overall_risk_score (calculate_risk_scores snap)).2.2 = "Low Risk"
          ↔ claimNormalizedScore (totalScore (calculate_risk_scores snap)) < 30)
      ∧ ((get_overall_risk_score (calculate_risk_scores snap)).2.2 = "Medium Risk"
          ↔ 30 ≤ claimNormalizedScore (totalScore (calculate_risk_scores snap))
            ∧ claimNormalizedScore (totalScore (calculate_risk_scores snap)) < 70)
      ∧ ((get_overall_risk_score (calculate_risk_scores snap)).2.2 = "High Risk"
          ↔ 70 ≤ claimNormalizedScore (totalScore (calculate_risk_scores snap))) := by
  rw [get_overall_fst, get_overall_label]
  generalize totalScore (calculate_risk_scores snap) = t
  have h30 := claimNormalized_lt_30 t
  have h70 := claimNormalized_lt_70 t
  have hmono : pyMin t 1000 < 300 → pyMin t 1000 < 700 := by omega
  refine ⟨by rw [claimNormalized_eq, claimTrunc_intCast_div_ten], ?_, ?_, ?_⟩
  · by_cases h1 : pyMin t 1000 < 300
    · rw [if_pos h1]
      exact iff_of_true rfl (h30.mpr h1)
    · rw [if_neg h1]
      by_cases h2 : pyMin t 1000 < 700
      · rw [if_pos h2]
        exact iff_of_false (by decide) (fun hc => h1 (h30.mp hc))
      · rw [if_neg h2]
        exact iff_of_false (by decide) (fun hc => h1 (h30.mp hc))
  · by_cases h1 : pyMin t 1000 < 300
    · rw [if_pos h1]
      exact iff_of_false (by decide)
        (fun hc => absurd (h30.mpr h1) (not_lt.mpr hc.1))
    · rw [if_neg h1]
      by_cases h2 : pyMin t 1000 < 700
      · rw [if_pos h2]
        exact iff_of_true rfl ⟨not_lt.mp (fun hc => h1 (h30.mp hc)), h70.mpr h2⟩
      · rw [if_neg h2]
        exact iff_of_false (by decide) (fun hc => h2 (h70.mp hc.2))
  · by_cases h1 : pyMin t 1000 < 300
    · rw [if_pos h1]
      exact iff_of_false (by decide)
        (fun hc => absurd (h70.mpr (hmono h1)) (not_lt.mpr hc))
    · rw [if_neg h1]
      by_cases h2 : pyMin t 1000 < 700
      · rw [if_pos h2]
        exact iff_of_false (by decide)
          (fun hc => absurd (h70.mpr h2) (not_lt.mpr hc))
      · rw [if_neg h2]
        exact iff_of_true rfl (not_lt.mp (fun hc => h2 (h70.mp hc)))

/-! ## C2: bounds on sub-scores and overall score -/

/-- A snapshot with a negative `Statistics.NTLMEventCount`, which the claim
C2 explicitly allows to be an arbitrary integer. -/
def c2Snap : Snapshot := { ntlmEventCount := -10 }

/-- C2 counterexample: with `NTLMEventCount = -10` the ntlm sub-score is
`min(-10 * 2, 100) = -20 < 0` and the overall score is `-2 ∉ [0, 100]`, so it
is false that every sub-score is ≥ 0 and the overall score is in [0,100] for
all snapshots with arbitrary-integer counters. -/
theorem c2_counterexample :
    (calculate_risk_scores c2Snap).ntlm = -20
      ∧ (get_overall_risk_score (calculate_risk_scores c2Snap)).1 = -2 := by
  decide

/-- C2 amended: for every snapshot whose `NTLMEventCount` is non-negative
(day counters still arbitrary), all six sub-scores are ≥ 0 and the overall
score is in [0, 100]. -/
theorem c2_scores_bounds (snap : Snapshot) (h : 0 ≤ snap.ntlmEventCount) :
    0 ≤ (calculate_risk_scores snap).kerberoasting
      ∧ 0 ≤ (calculate_risk_scores snap).delegation
      ∧ 0 ≤ (calculate_risk_scores snap).encryption
      ∧ 0 ≤ (calculate_risk_scores snap).ntlm
      ∧ 0 ≤ (calculate_risk_scores snap).privileged
      ∧ 0 ≤ (calculate_risk_scores snap).inactive
      ∧ 0 ≤ (get_overall_risk_score (calculate_risk_scores snap)).1
      ∧ (get_overall_risk_score (calculate_risk_scores snap)).1 ≤ 100 := by
  have hk : 0 ≤ (calculate_risk_scores snap).kerberoasting := by
    simp only [calculate_risk_scores]; positivity
  have hd : 0 ≤ (calculate_risk_scores snap).delegation := by
    simp only [calculate_risk_scores]; positivity
  have he : 0 ≤ (calculate_risk_scores snap).encryption := by
    simp only [calculate_risk_scores]; positivity
  have hn : 0 ≤ (calculate_risk_scores snap).ntlm := by
    simp only [calculate_risk_scores, pyMin]
    split <;> omega
  have hp : 0 ≤ (calculate_risk_scores snap).privileged := by
    simp only [calculate_risk_scores]; positivity
  have hi : 0 ≤ (calculate_risk_scores snap).inactive := by
    simp only [calculate_risk_scores]; positivity
  have ht : 0 ≤ totalScore (calculate_risk_scores snap) := by
    unfold totalScore; omega
  refine ⟨hk, hd, he, hn, hp, hi, ?_, ?_⟩
  · rw [get_overall_fst]
    exact Int.tdiv_nonneg (by unfold pyMin; split <;> omega) (by norm_num)
  · rw [get_overall_fst]
    have h0 : 0 ≤ pyMin (totalScore (calculate_risk_scores snap)) 1000 := by
      unfold pyMin; split <;> omega
    have h1000 : pyMin (totalScore (calculate_risk_scores snap)) 1000 ≤ 1000 := by
      unfold pyMin; split <;> omega
    rw [Int.tdiv_eq_ediv h0 (by norm_num)]
    have := Int.ediv_le_ediv (show (0:Int) < 10 by norm_num) h1000
    omega

/-- Witness for C2 amended at a concrete snapshot. -/
theorem c2_scores_bounds_witness :
    0 ≤ (Snapshot.mk none [] [] [] 5).ntlmEventCount
      ∧ (0 ≤ (calculate_risk_scores (Snapshot.mk none [] [] [] 5)).kerberoasting
        ∧ 0 ≤ (calculate_risk_scores (Snapshot.mk none [] [] [] 5)).delegation
        ∧ 0 ≤ (calculate_risk_scores (Snapshot.mk none [] [] [] 5)).encryption
        ∧ 0 ≤ (calculate_risk_scores (Snapshot.mk none [] [] [] 5)).ntlm
        ∧ 0 ≤ (calculate_risk_scores (Snapshot.mk none [] [] [] 5)).privileged
        ∧ 0 ≤ (calculate_risk_scores (Snapshot.mk none [] [] [] 5)).inactive
        ∧ 0 ≤ (get_overall_risk_score (calculate_risk_scores (Snapshot.mk none [] [] [] 5))).1
        ∧ (get_overall_risk_score (calculate_risk_scores (Snapshot.mk none [] [] [] 5))).1 ≤ 100) :=
  ⟨by decide, c2_scores_bounds (Snapshot.mk none [] [] [] 5) (by decide)⟩

/-! ## C5: malformed-field handling in the scoring engine -/

/-- When no user stores a `null` under `EncryptionTypes`, the raw count of
weak-encryption users succeeds and agrees with the defaulted count. -/
theorem countWeak_no_null (users : List RawUser)
    (h : ∀ u ∈ users, u.encryptionTypes ≠ RawListField.null) :
    countWeakEncryptionRaw users =
      .ok ((users.map RawUser.toPyUser).filter weakEncryptionOrDES).length := by
  induction users with
  | nil => rfl
  | cons u rest ih =>
    have hu := h u (List.mem_cons_self u rest)
    have hrest := ih (fun v hv => h v (List.mem_cons_of_mem _ hv))
    have hok : weakEncryptionOrDESRaw u = .ok (weakEncryptionOrDES u.toPyUser) := by
      unfold weakEncryptionOrDESRaw weakEncryptionOrDES weakEncryption RawUser.toPyUser
      match henc : u.encryptionTypes with
      | .null => exact absurd henc hu
      | .absent => simp
      | .val l => simp
    show (weakEncryptionOrDESRaw u).bind _ = _
    rw [hok]
    show (countWeakEncryptionRaw rest).bind _ = _
    rw [hrest]
    simp only [Except.bind, List.map_cons, List.filter_cons]
    by_cases hb : weakEncryptionOrDES u.toPyUser = true
    · simp [hb]
      rfl
    · simp [Bool.of_not_eq_true hb]
      rfl

/-- A snapshot whose sole user record stores JSON `null` under
`EncryptionTypes` (the top-level structure parses fine). -/
def c5Snap : RawSnapshot := { users := [{ encryptionTypes := .null }] }

/-- C5 counterexample: on a parsed snapshot holding a `null`
`EncryptionTypes`, the scoring engine does not treat the value as its neutral
default — `u.get('EncryptionTypes', [])` returns the stored `None` and
iterating it raises `TypeError`, so the analysis does not run to
completion. -/
theorem c5_counterexample :
    calculate_risk_scoresRaw c5Snap = .error () := rfl

/-- C5 amended: any *absent* expected field is treated as its neutral default
and scoring runs to completion (likewise a `null`/non-list `MemberOf`, which
`_get_member_of` normalizes); but a `null` stored under a field read with
`.get(k, default)` — such as `EncryptionTypes` here, or `Description` in the
Kerberoasting rule — is returned as-is, not defaulted, and makes the analysis
raise.  Formally: on every raw snapshot with no `null` `EncryptionTypes`, the
scoring engine succeeds and equals the defaulted-field scoring. -/
theorem c5_absent_fields_defaulted (snap : RawSnapshot)
    (h : noNullEncryptionTypes snap = true) :
    calculate_risk_scoresRaw snap = .ok (calculate_risk_scores snap.toSnapshot) := by
  unfold calculate_risk_scoresRaw
  rw [countWeak_no_null snap.users
    (fun u hu => by simpa using List.all_eq_true.mp h u hu)]
  rfl

/-- A raw snapshot exercising the absent-field default: `EncryptionTypes`
missing, `UseDESKeyOnly` set. -/
def c5WSnap : RawSnapshot :=
  { users := [{ encryptionTypes := .absent, useDESKeyOnly := true }] }

/-- Witness for C5 amended at a concrete raw snapshot. -/
theorem c5_absent_fields_defaulted_witness :
    noNullEncryptionTypes c5WSnap = true
      ∧ calculate_risk_scoresRaw c5WSnap =
          .ok (calculate_risk_scores c5WSnap.toSnapshot) :=
  ⟨by decide, c5_absent_fields_defaulted c5WSnap (by decide)⟩

/-! ## C7: attack-path node ids exist in the graph -/

/-- C7: for every snapshot, every node id in the path sequence of every
emitted AttackPath is the id of a node present in that run's graph. -/
theorem c7_paths_reference_graph_nodes (snap : Snapshot) :
    ∀ p ∈ attackPathsOf snap, ∀ x ∈ p.path,
      x ∈ (buildGraph snap).nodes.map GraphNode.id := by
  intro p hp x hx
  rw [show (buildGraph snap).nodes.map GraphNode.id = nodeIdMapAll snap from
    nodes_ids_eq_nodeIdMap snap]
  simp only [attackPathsOf, List.mem_append] at hp
  rcases hp with ((((h1 | h2) | h3) | h4) | h5)
  · obtain ⟨hgate, u, hu, _, hmem, _, hpe⟩ := rule1_shape h1
    subst hpe
    rw [mkGM_path] at hx
    simp only [List.mem_cons, List.not_mem_nil, or_false] at hx
    rcases hx with rfl | rfl
    · exact hmem
    · exact hgate
  · obtain ⟨u, hu, _, _, hmem, hpe⟩ := rule2_shape h2
    subst hpe
    rw [mkKerb_path] at hx
    simp only [List.mem_cons, List.not_mem_nil, or_false] at hx
    rcases hx with rfl
    exact hmem
  · obtain ⟨u, hu, _, hmem, _, hpath⟩ := rule3_shape h3
    rw [hpath] at hx
    simp only [List.mem_cons, List.not_mem_nil, or_false] at hx
    rcases hx with rfl
    exact hmem
  · obtain ⟨u, hu, _, _, hmem, _, _, hpath⟩ := rule4_shape h4
    rw [hpath] at hx
    simp only [List.mem_cons, List.not_mem_nil, or_false] at hx
    rcases hx with rfl
    exact hmem
  · obtain ⟨c, hc, _, hmem, _, _, hpath⟩ := rule5_shape h5
    rw [hpath] at hx
    simp only [List.mem_cons, List.not_mem_nil, or_false] at hx
    rcases hx with rfl
    exact hmem

/-! ## C9: uniqueness of node ids -/

/-- Two user records with identical account names and SPNs: both pass the
inclusion filter and both append a node with id `user_a`. -/
def c9Snap : Snapshot :=
  { users := [{ samAccountName := some "a", spns := some ["s"] },
              { samAccountName := some "a", spns := some ["s"] }] }

/-- C9 counterexample: the code appends a node per included user without
checking `node_id_map`, so two user records sharing an account name produce
two nodes with the same id string — node ids are not globally unique for
arbitrary snapshots. -/
theorem c9_counterexample :
    ¬ ((buildGraph c9Snap).nodes.map (fun n => n.id.toStr)).Nodup := by
  decide

/-- C9 amended: node ids are globally unique provided no two included users
share a printed account name, no two allow-listed security-group records
share a name, and no two included computers share a printed account name
(the four id kinds cannot collide with each other). -/
theorem c9_node_ids_unique (snap : Snapshot)
    (hu : ((highRiskUsers snap).map (fun u => pyFStr u.samAccountName)).Nodup)
    (hg : ((privGroups snap).map groupNameOf).Nodup)
    (hc : ((riskComputers snap).map (fun c => pyFStr c.samAccountName)).Nodup) :
    ((buildGraph snap).nodes.map (fun n => n.id.toStr)).Nodup := by
  have h2 : ((buildGraph snap).nodes.map (fun n => n.id.toStr))
      = (nodeIdMapAll snap).map NodeId.toStr := by
    rw [← nodes_ids_eq_nodeIdMap snap, List.map_map]
    rfl
  rw [h2]
  apply List.Nodup.map NodeId.toStr_injective
  unfold nodeIdMapAll
  rw [List.nodup_cons]
  constructor
  · intro hmem
    simp only [List.mem_append, List.mem_map, domainIdOf, userIdOf, groupIdOf,
      compIdOf] at hmem
    rcases hmem with (⟨u, _, h⟩ | ⟨g, _, h⟩) | ⟨c, _, h⟩ <;> cases h
  · have hun : ((highRiskUsers snap).map userIdOf).Nodup := by
      have : (highRiskUsers snap).map userIdOf =
          ((highRiskUsers snap).map (fun u => pyFStr u.samAccountName)).map
            NodeId.user := by
        rw [List.map_map]; rfl
      rw [this]
      exact hu.map (fun a b h => by injection h)
    have hgn : ((privGroups snap).map groupIdOf).Nodup := by
      have : (privGroups snap).map groupIdOf =
          ((privGroups snap).map groupNameOf).map NodeId.group := by
        rw [List.map_map]; rfl
      rw [this]
      exact hg.map (fun a b h => by injection h)
    have hcn : ((riskComputers snap).map compIdOf).Nodup := by
      have : (riskComputers snap).map compIdOf =
          ((riskComputers snap).map (fun c => pyFStr c.samAccountName)).map
            NodeId.comp := by
        rw [List.map_map]; rfl
      rw [this]
      exact hc.map (fun a b h => by injection h)
    refine (hun.append hgn ?_).append hcn ?_
    · intro x hx hy
      simp only [List.mem_map, userIdOf] at hx
      simp only [List.mem_map, groupIdOf] at hy
      obtain ⟨u, _, rfl⟩ := hx
      obtain ⟨g, _, h⟩ := hy
      cases h
    · intro x hx hy
      simp only [List.mem_append, List.mem_map, userIdOf, groupIdOf] at hx
      simp only [List.mem_map, compIdOf] at hy
      obtain ⟨c, _, rfl⟩ := hy
      rcases hx with ⟨u, _, h⟩ | ⟨g, _, h⟩ <;> cases h

/-! ## C10: the group-membership rule is gated on the Domain Admins node -/

def isGroupMembershipFinding (p : AttackPath) : Bool :=
  p.ptype == "Group Membership"

def noDomainAdminsGroup (snap : Snapshot) : Bool :=
  snap.securityGroups.all (fun g => groupNameOf g != "Domain Admins")

/-- C10: if the snapshot's `SecurityGroups` section is absent or contains no
group named "Domain Admins", the detector emits zero Group-Membership
findings, even for users whose `MemberOf` contains "Domain Admins": the rule
is gated on `"group_Domain Admins" in node_id_map`, and that id is only ever
inserted by the SecurityGroups loop. -/
theorem c10_gated_on_group_node (snap : Snapshot)
    (h : noDomainAdminsGroup snap = true) :
    (attackPathsOf snap).filter isGroupMembershipFinding = [] := by
  rw [List.filter_eq_nil_iff]
  intro p hp
  simp only [attackPathsOf, List.mem_append] at hp
  rcases hp with ((((h1 | h2) | h3) | h4) | h5)
  · exfalso
    obtain ⟨hgate, _⟩ := rule1_shape h1
    rw [group_mem_nodeIdMap_iff] at hgate
    obtain ⟨g, hg, hname⟩ := hgate
    have hall := List.all_eq_true.mp h g (List.mem_filter.mp hg).1
    rw [hname] at hall
    simp at hall
  · obtain ⟨u, _, _, _, _, hpe⟩ := rule2_shape h2
    subst hpe
    simp only [isGroupMembershipFinding, mkKerb_ptype]
    decide
  · obtain ⟨u, _, _, _, hty, _⟩ := rule3_shape h3
    simp only [isGroupMembershipFinding]
    rw [hty]
    cases u.trustedForDelegation <;> decide
  · obtain ⟨u, _, _, _, _, hty, _, _⟩ := rule4_shape h4
    simp only [isGroupMembershipFinding]
    rw [hty]
    decide
  · obtain ⟨c, _, _, _, hty, _, _⟩ := rule5_shape h5
    simp only [isGroupMembershipFinding]
    rw [hty]
    decide

/-- A snapshot with a Domain Admins user but no SecurityGroups section. -/
def c10Snap : Snapshot :=
  { users := [{ samAccountName := some "alice",
                memberOf := some ["Domain Admins"] }] }

/-- Witness for C10 at a concrete snapshot. -/
theorem c10_gated_on_group_node_witness :
    noDomainAdminsGroup c10Snap = true
      ∧ (attackPathsOf c10Snap).filter isGroupMembershipFinding = [] :=
  ⟨by decide, c10_gated_on_group_node c10Snap (by decide)⟩

/-! ## C3: group-membership findings for Domain Admins members -/

def c3User : PyUser :=
  { samAccountName := some "alice", memberOf := some ["Domain Admins"] }

def c3Snap : Snapshot := { users := [c3User] }

/-- C3 counterexample: a user in Domain Admins, with an account name that is
not "Administrator", in a snapshot with no SecurityGroups section: the claim
demands a Group-Membership finding, but the detector emits none (the rule is
gated on the Domain Admins group node, cf. C10). -/
theorem c3_counterexample :
    c3User ∈ c3Snap.users
      ∧ (getMemberOf c3User).contains "Domain Admins" = true
      ∧ pyLower "alice" ≠ "administrator"
      ∧ (attackPathsOf c3Snap).filter isGroupMembershipFinding = [] := by
  decide

def hasDomainAdminsGroup (snap : Snapshot) : Bool :=
  snap.securityGroups.any (fun g => groupNameOf g == "Domain Admins")

/-- C3 amended: *provided the snapshot's SecurityGroups section contains a
group named "Domain Admins"*, for every user record carrying an account name
whose `MemberOf` contains "Domain Admins", except account name
"Administrator" (case-insensitive), the detector emits a Group-Membership
finding whose severity is "critical", unless the user is also in
"Protected Users", in which case it is "high". -/
theorem c3_group_membership_findings (snap : Snapshot) (u : PyUser) (s : String)
    (hgrp : hasDomainAdminsGroup snap = true)
    (hu : u ∈ snap.users)
    (hname : u.samAccountName = some s)
    (hadmin : pyLower s ≠ "administrator")
    (hda : (getMemberOf u).contains "Domain Admins" = true) :
    mkGroupMembershipFinding s (getMemberOf u) ∈ attackPathsOf snap
      ∧ (mkGroupMembershipFinding s (getMemberOf u)).severity =
          (if (getMemberOf u).contains "Protected Users" then "high"
           else "critical") := by
  have hinc : userIncluded u = true := by
    unfold userIncluded isDomainAdmin
    rw [hda]
    simp
  have hmem : NodeId.user s ∈ nodeIdMapAll snap := by
    have h := userIdOf_mem_nodeIdMap hu hinc
    unfold userIdOf at h
    rw [hname] at h
    exact h
  refine ⟨?_, mkGM_severity s (getMemberOf u)⟩
  simp only [attackPathsOf]
  apply List.mem_append_left
  apply List.mem_append_left
  apply List.mem_append_left
  apply List.mem_append_left
  unfold rule1GroupMembership
  rw [if_pos ?gate]
  case gate =>
    rw [group_mem_nodeIdMap_iff]
    obtain ⟨g, hg, hn⟩ := List.any_eq_true.mp hgrp
    have hgname : groupNameOf g = "Domain Admins" := by simpa using hn
    refine ⟨g, List.mem_filter.mpr ⟨hg, ?_⟩, hgname⟩
    rw [hgname]
    decide
  rw [List.mem_filterMap]
  refine ⟨u, hu, ?_⟩
  rw [hname]
  simp only [Option.getD_some]
  rw [if_neg hadmin, if_pos hmem, if_pos hda]

def c3WUser : PyUser :=
  { samAccountName := some "carol", memberOf := some ["Domain Admins"] }

def c3WSnap : Snapshot :=
  { users := [c3WUser], securityGroups := [{ name := some "Domain Admins" }] }

/-- Witness for C3 amended at a concrete snapshot. -/
theorem c3_group_membership_findings_witness :
    mkGroupMembershipFinding "carol" (getMemberOf c3WUser) ∈ attackPathsOf c3WSnap
      ∧ (mkGroupMembershipFinding "carol" (getMemberOf c3WUser)).severity =
          (if (getMemberOf c3WUser).contains "Protected Users" then "high"
           else "critical") :=
  c3_group_membership_findings c3WSnap c3WUser "carol" (by decide)
    (by decide) (by decide) (by decide) (by decide)

/-! ## C4: Kerberoasting findings -/

def isKerberoastingFinding (p : AttackPath) : Bool :=
  p.ptype == "Kerberoasting"

/-- Every user record carries an account name (the spec's data model gives
every Principal an account name; a record without one would be added to the
graph under the printed id `user_None` but looked up by the detector under
`user_`). -/
def allUsersNamed (snap : Snapshot) : Bool :=
  snap.users.all (fun u => u.samAccountName.isSome)

/-- The Kerberoasting trigger/exclusion of rule 2: at least one SPN and not
the krbtgt account (case-insensitive). -/
def kerbQualifies (u : PyUser) : Bool :=
  !(pyLower (u.samAccountName.getD "") == "krbtgt") && hasSPNs u

theorem filterMap_guard_eq_map {α β : Type} (f : α → β) (q : α → Bool)
    (g : α → Option β) (l : List α)
    (h : ∀ a ∈ l, g a = if q a then some (f a) else none) :
    l.filterMap g = (l.filter q).map f := by
  induction l with
  | nil => rfl
  | cons a rest ih =>
    rw [List.filterMap_cons, List.filter_cons,
      h a (List.mem_cons_self a rest),
      ih (fun b hb => h b (List.mem_cons_of_mem _ hb))]
    by_cases hq : q a = true
    · rw [if_pos hq, if_pos hq, List.map_cons]
    · rw [if_neg hq, if_neg hq]

/-- On a snapshot whose users all carry account names, rule 2 emits exactly
one finding per qualifying user, in user order: the `node_id_map` guard is
always satisfied because a user with SPNs has risk tier "high" and is
therefore an included graph node. -/
theorem rule2_eq_map (snap : Snapshot) (hnamed : allUsersNamed snap = true) :
    rule2Kerberoasting snap (nodeIdMapAll snap) =
      (snap.users.filter kerbQualifies).map
        (fun u => mkKerberoastingFinding (u.samAccountName.getD "")
          u.description (u.spns.getD [])) := by
  unfold rule2Kerberoasting
  apply filterMap_guard_eq_map
  intro u hu
  obtain ⟨s, hs⟩ := Option.isSome_iff_exists.mp (List.all_eq_true.mp hnamed u hu)
  by_cases hkrb : pyLower (u.samAccountName.getD "") = "krbtgt"
  · rw [if_pos hkrb]
    have : kerbQualifies u = false := by
      unfold kerbQualifies
      rw [beq_iff_eq.mpr hkrb]
      rfl
    rw [this]
    rfl
  · rw [if_neg hkrb]
    by_cases hspn : hasSPNs u = true
    · have hinc : userIncluded u = true := by
        unfold userIncluded userRisk
        rw [hspn]
        rfl
      have hmem : NodeId.user (u.samAccountName.getD "") ∈ nodeIdMapAll snap := by
        have h := userIdOf_mem_nodeIdMap hu hinc
        unfold userIdOf at h
        rw [hs] at h
        rw [hs]
        exact h
      rw [if_pos hspn, if_pos hmem]
      have : kerbQualifies u = true := by
        unfold kerbQualifies
        rw [hspn, Bool.and_true, Bool.not_eq_true', beq_eq_false_iff_ne]
        exact hkrb
      rw [this]
      rfl
    · rw [if_neg hspn]
      have : kerbQualifies u = false := by
        unfold kerbQualifies
        rw [Bool.of_not_eq_true hspn, Bool.and_false]
      rw [this]
      rfl

/-- No rule but rule 2 produces findings typed "Kerberoasting". -/
theorem other_rules_no_kerb (snap : Snapshot) (mp : List NodeId) :
    (rule1GroupMembership snap mp).filter isKerberoastingFinding = []
      ∧ (rule3Delegation snap mp).filter isKerberoastingFinding = []
      ∧ (rule4ASREPRoasting snap mp).filter isKerberoastingFinding = []
      ∧ (rule5UnconstrainedComputers snap mp).filter isKerberoastingFinding = [] := by
  refine ⟨?_, ?_, ?_, ?_⟩ <;> rw [List.filter_eq_nil_iff] <;> intro p hp
  · obtain ⟨_, u, _, _, _, _, hpe⟩ := rule1_shape hp
    subst hpe
    simp only [isKerberoastingFinding, mkGM_ptype]
    decide
  · obtain ⟨u, _, _, _, hty, _⟩ := rule3_shape hp
    simp only [isKerberoastingFinding]
    rw [hty]
    cases u.trustedForDelegation <;> decide
  · obtain ⟨u, _, _, _, _, hty, _, _⟩ := rule4_shape hp
    simp only [isKerberoastingFinding]
    rw [hty]
    decide
  · obtain ⟨c, _, _, _, hty, _, _⟩ := rule5_shape hp
    simp only [isKerberoastingFinding]
    rw [hty]
    decide

/-- Every rule-2 finding is typed "Kerberoasting". -/
theorem rule2_all_kerb (snap : Snapshot) (mp : List NodeId) :
    (rule2Kerberoasting snap mp).filter isKerberoastingFinding =
      rule2Kerberoasting snap mp := by
  rw [List.filter_eq_self]
  intro p hp
  obtain ⟨u, _, _, _, _, hpe⟩ := rule2_shape hp
  subst hpe
  simp only [isKerberoastingFinding, mkKerb_ptype]
  decide

/-- The scenario snapshot of C4: one user `svc_sql` with one SPN. -/
def c4Snap : Snapshot :=
  { users := [{ samAccountName := some "svc_sql",
                spns := some ["MSSQLSvc/host:1433"] }] }

/-- C4: on snapshots whose user records all carry account names, the detector
emits exactly one Kerberoasting finding per user with at least one SPN whose
account name is not "krbtgt" (case-insensitive) — and no finding for krbtgt —
with severity "medium" when the (lowercased) name starts with "svc_" or the
name or description contains "service", and "high" otherwise; in particular
the scenario snapshot `{name: "svc_sql", SPNs: ["MSSQLSvc/host:1433"]}` yields
kerberoasting sub-score 10 and exactly one Kerberoasting finding, of severity
"medium". -/
theorem c4_kerberoasting_findings :
    (∀ snap : Snapshot, allUsersNamed snap = true →
        (attackPathsOf snap).filter isKerberoastingFinding =
          (snap.users.filter kerbQualifies).map
            (fun u => mkKerberoastingFinding (u.samAccountName.getD "")
              u.description (u.spns.getD [])))
      ∧ (∀ u : PyUser, ∀ d : List String,
          (mkKerberoastingFinding (u.samAccountName.getD "") u.description d).severity
            = if isLikelyService (u.samAccountName.getD "") u.description
              then "medium" else "high")
      ∧ (calculate_risk_scores c4Snap).kerberoasting = 10
      ∧ (attackPathsOf c4Snap).filter isKerberoastingFinding =
          [mkKerberoastingFinding "svc_sql" "" ["MSSQLSvc/host:1433"]]
      ∧ (mkKerberoastingFinding "svc_sql" "" ["MSSQLSvc/host:1433"]).severity
          = "medium" := by
  refine ⟨?_, ?_, by decide, by decide, by decide⟩
  · intro snap hnamed
    simp only [attackPathsOf, List.filter_append]
    obtain ⟨h1, h3, h4, h5⟩ := other_rules_no_kerb snap (nodeIdMapAll snap)
    rw [h1, h3, h4, h5, rule2_all_kerb, rule2_eq_map snap hnamed]
    simp
  · intro u d
    exact mkKerb_severity _ _ _

/-- Witness for C4's universally quantified part at a concrete snapshot. -/
theorem c4_kerberoasting_findings_witness :
    allUsersNamed c4Snap = true
      ∧ (attackPathsOf c4Snap).filter isKerberoastingFinding =
          (c4Snap.users.filter kerbQualifies).map
            (fun u => mkKerberoastingFinding (u.samAccountName.getD "")
              u.description (u.spns.getD [])) :=
  ⟨by decide, c4_kerberoasting_findings.1 c4Snap (by decide)⟩

/-! ## C6: AS-REP roasting findings -/

def isASREPFinding (p : AttackPath) : Bool := p.ptype == "AS-REP Roasting"

def c6User : PyUser :=
  { samAccountName := some "dave", doesNotRequirePreAuth := true }

def c6Snap : Snapshot := { users := [c6User] }

/-- C6 counterexample: a user with the does-not-require-preauth flag whose
name is none of the excluded accounts, but who has no SPNs, delegation,
privileged membership or weak encryption: the user is not an included graph
node, the rule's `if user_id in node_id_map` guard fails, and no AS-REP
finding is emitted — contradicting the claim that a finding is emitted for
every such user. -/
theorem c6_counterexample :
    c6User ∈ c6Snap.users
      ∧ c6User.doesNotRequirePreAuth = true
      ∧ (excludedAccounts.map pyLower).contains (pyLower "dave") = false
      ∧ (attackPathsOf c6Snap).filter isASREPFinding = [] := by
  decide

/-- The AS-REP finding record of lines 2164-2170. -/
def mkASREPFinding (user_sam : String) : AttackPath :=
  { ptype := "AS-REP Roasting"
    severity := "high"
    description := "User " ++ user_sam
      ++ " does not require pre-authentication (AS-REP roasting)"
    path := [.user user_sam]
    steps := ["User " ++ user_sam ++ " ‚Üí Vulnerable to AS-REP roasting"] }

/-- C6 amended: for every user with the does-not-require-preauth flag, except
account names "Administrator", "krbtgt", "Guest" (case-insensitive), *and
provided the user is an included graph node* (tier "high"/"medium" or Domain
Admins member), an AS-REP Roasting finding with severity "high" is
emitted. -/
theorem c6_asrep_findings (snap : Snapshot) (u : PyUser) (s : String)
    (hu : u ∈ snap.users)
    (hname : u.samAccountName = some s)
    (hexc : (excludedAccounts.map pyLower).contains (pyLower s) = false)
    (hpre : u.doesNotRequirePreAuth = true)
    (hinc : userIncluded u = true) :
    mkASREPFinding s ∈ attackPathsOf snap
      ∧ (mkASREPFinding s).severity = "high" := by
  have hmem : NodeId.user s ∈ nodeIdMapAll snap := by
    have h := userIdOf_mem_nodeIdMap hu hinc
    unfold userIdOf at h
    rw [hname] at h
    exact h
  refine ⟨?_, rfl⟩
  simp only [attackPathsOf]
  apply List.mem_append_left
  apply List.mem_append_right
  unfold rule4ASREPRoasting
  rw [List.mem_filterMap]
  refine ⟨u, hu, ?_⟩
  rw [hname]
  simp only [Option.getD_some]
  rw [if_neg (by rw [hexc]; exact Bool.false_ne_true), if_pos hpre, if_pos hmem]
  rfl

def c6WUser : PyUser :=
  { samAccountName := some "erin", doesNotRequirePreAuth := true,
    memberOf := some ["Enterprise Admins"] }

def c6WSnap : Snapshot := { users := [c6WUser] }

/-- Witness for C6 amended at a concrete snapshot (the user is included via
Enterprise Admins membership). -/
theorem c6_asrep_findings_witness :
    mkASREPFinding "erin" ∈ attackPathsOf c6WSnap
      ∧ (mkASREPFinding "erin").severity = "high" :=
  c6_asrep_findings c6WSnap c6WUser "erin" (by decide) (by decide) (by decide)
    (by decide) (by decide)

/-! ## C8: edge marking from attack paths -/

def c8User : PyUser :=
  { samAccountName := some "amy", memberOf := some ["Domain Admins"] }

def c8Snap : Snapshot :=
  { users := [c8User],
    securityGroups := [{ name := some "Domain Admins",
                         members := [{ samAccountName := some "amy" }] }] }

/-- C8 counterexample: for the Group-Membership finding with path
`[user, group]`, the MemberOf edge between the Domain Admins group node and
the user runs group→user, while the marking keys are built from the *ordered*
path pair user→group; the keys never match, so that edge is NOT flagged —
the " in particular" part of the claim is false. -/
theorem c8_counterexample :
    mkGroupMembershipFinding "amy" ["Domain Admins"] ∈ attackPathsOf c8Snap
      ∧ (mkGroupMembershipFinding "amy" ["Domain Admins"]).path =
          [.user "amy", .group "Domain Admins"]
      ∧ (⟨.group "Domain Admins", .user "amy", "MemberOf", false⟩ : GraphEdge)
          ∈ (buildGraph c8Snap).edges
      ∧ (⟨.group "Domain Admins", .user "amy", "MemberOf", true⟩ : GraphEdge)
          ∉ (buildGraph c8Snap).edges := by
  decide

/-- C8 amended: after the marking pass, every edge whose *ordered* endpoint
pair `from → to` produces a key matching a consecutive-pair key of some
AttackPath's node sequence carries the attack-path flag, and re-running the
marking pass is a no-op (re-flagging an already-flagged edge changes
nothing); the MemberOf edge of a `[user, group]` Group-Membership path is
oriented group→user and is therefore not matched (see the
counterexample). -/
theorem c8_ordered_marking :
    (∀ (snap : Snapshot) (e : GraphEdge), e ∈ (buildGraph snap).edges →
        edgeKeyOf e ∈ attackPathEdgeKeys (attackPathsOf snap) →
        e.attackPath = true)
      ∧ (∀ (edges : List GraphEdge) (keys : List String),
          markEdges (markEdges edges keys) keys = markEdges edges keys) := by
  constructor
  · intro snap e he hk
    simp only [buildGraph] at he
    unfold markEdges at he
    rw [List.mem_map] at he
    obtain ⟨e0, _, heq⟩ := he
    split at heq
    case isTrue hc =>
      rw [← heq]
    case isFalse hc =>
      subst heq
      exact absurd (by simp [hk] : (decide (edgeKeyOf e0 ∈
        attackPathEdgeKeys (attackPathsOf snap)) || e0.attackPath) = true) hc
  · intro edges keys
    unfold markEdges
    rw [List.map_map]
    apply List.map_congr_left
    intro e _
    simp only [Function.comp_apply]
    by_cases hc : (decide (edgeKeyOf e ∈ keys) || e.attackPath) = true
    · rw [if_pos hc]
      rw [if_pos (by simp : (decide (edgeKeyOf { e with attackPath := true } ∈ keys)
        || ({ e with attackPath := true } : GraphEdge).attackPath) = true)]
    · rw [if_neg hc, if_neg hc]

/-- A snapshot in which an edge's ordered key collides with a path-pair key:
the Group-Membership path of user `a_comp_y` yields the key
`user_a_comp_y_group_Domain Admins`, which is also the key of the
DelegatesTo edge from user `a` to computer `y_group_Domain Admins`. -/
def c8WSnap : Snapshot :=
  { users := [{ samAccountName := some "a_comp_y",
                memberOf := some ["Domain Admins"] },
              { samAccountName := some "a", trustedForDelegation := true }],
    computers := [{ samAccountName := some "y_group_Domain Admins",
                    trustedForDelegation := true }],
    securityGroups := [{ name := some "Domain Admins" }] }

def c8WEdge : GraphEdge :=
  { src := .user "a", dst := .comp "y_group_Domain Admins",
    label := "DelegatesTo", attackPath := true }

/-- Witness for C8 amended, part 1, at a concrete snapshot and edge. -/
theorem c8_ordered_marking_witness : c8WEdge.attackPath = true :=
  c8_ordered_marking.1 c8WSnap c8WEdge (by decide) (by decide)

def c7Snap : Snapshot :=
  { users := [{ samAccountName := some "bob", spns := some ["HTTP/web"] }] }

/-- Witness for C7 at a concrete snapshot, finding and node id. -/
theorem c7_paths_reference_graph_nodes_witness :
    NodeId.user "bob" ∈ (buildGraph c7Snap).nodes.map GraphNode.id :=
  c7_paths_reference_graph_nodes c7Snap
    (mkKerberoastingFinding "bob" "" ["HTTP/web"]) (by decide)
    (NodeId.user "bob") (by decide)

def c9WSnap : Snapshot :=
  { users := [{ samAccountName := some "u1", spns := some ["s"] }],
    securityGroups := [{ name := some "Domain Admins" }],
    computers := [{ samAccountName := some "pc1", isDomainController := true }] }

/-- Witness for C9 amended at a concrete snapshot. -/
theorem c9_node_ids_unique_witness :
    ((highRiskUsers c9WSnap).map (fun u => pyFStr u.samAccountName)).Nodup
      ∧ ((privGroups c9WSnap).map groupNameOf).Nodup
      ∧ ((riskComputers c9WSnap).map (fun c => pyFStr c.samAccountName)).Nodup
      ∧ ((buildGraph c9WSnap).nodes.map (fun n => n.id.toStr)).Nodup :=
  ⟨by decide, by decide, by decide,
    c9_node_ids_unique c9WSnap (by decide) (by decide) (by decide)⟩
